import Mathlib

/-!
Verification of `lib/charms/hpc_libs/v0/is_container.py` from `hpc-libs`.

The module exposes one function, `is_container`, which resolves the
executable `systemd-detect-virt` with `shutil.which`, raises
`DetectVirtNotFoundError` when it is absent, and otherwise runs
`subprocess.run(["systemd-detect-virt", "--container"])` and returns
`result.returncode == 0`.

We embed the host environment explicitly: `Env.which` models
`shutil.which` (executable name to optional resolved path) and `Env.run`
models `subprocess.run` (argument vector to either a raised OS-level
error or a completed process carrying a return code and output streams).
`is_containerRun` is the shallow embedding of the Python function; its
second component records every `subprocess.run` call the invocation
makes, so that process-spawn effects are visible to the theorems.
-/

/-- A completed child process, as `subprocess.run` returns it: the exit
status plus whatever the child wrote on its output streams. The Python
call does not pass `capture_output`, but we keep the streams in the
model so that noninterference with them can be stated. -/
structure CompletedProcess where
  returncode : Int
  stdout : String
  stderr : String
deriving DecidableEq, Repr

/-- An OS-level failure of `subprocess.run` itself (the child could not
be started), e.g. `PermissionError`. These are not handled by
`is_container` and propagate to the caller unchanged. -/
inductive OSFailure where
  | permissionError (msg : String)
  | fileNotFoundError (msg : String)
  | otherError (msg : String)
deriving DecidableEq, Repr

/-- The host state an invocation of `is_container` observes:
`which` is `shutil.which`, `run` is `subprocess.run` on an argument
vector. -/
structure Env where
  which : String → Option String
  run : List String → Except OSFailure CompletedProcess

/-- The `DetectVirtNotFoundError` exception class: a Python exception
holds the tuple of arguments it was constructed with (`self.args`). -/
structure DetectVirtNotFoundError where
  args : List String
deriving DecidableEq, Repr

/-- The `message` property of `DetectVirtNotFoundError`: Python returns
`self.args[0]`, which fails when the exception was constructed with no
arguments; `Option` makes that fallibility explicit. -/
def DetectVirtNotFoundError.message (e : DetectVirtNotFoundError) : Option String :=
  e.args.head?

/-- Everything an invocation of `is_container` can raise: its own
`DetectVirtNotFoundError`, or an OS failure propagated from
`subprocess.run`. -/
inductive PyError where
  | detectVirtNotFound (e : DetectVirtNotFoundError)
  | osError (e : OSFailure)
deriving DecidableEq, Repr

/-- The message built at the raise site in `is_container`, exactly as
the source concatenates it. -/
def detectVirtMissingMessage : String :=
  "executable `systemd-detect-virt` not found. "
    ++ "cannot determine if machine is a container instance"

/-- The argument vector `is_container` passes to `subprocess.run`. -/
def detectVirtArgv : List String :=
  ["systemd-detect-virt", "--container"]

/-- Shallow embedding of `is_container` with its effect trace: the
first component is the returned boolean or the raised exception, the
second lists every `subprocess.run` invocation made, in order. -/
def is_containerRun (env : Env) : Except PyError Bool × List (List String) :=
  match env.which "systemd-detect-virt" with
  | none =>
      (Except.error (PyError.detectVirtNotFound ⟨[detectVirtMissingMessage]⟩), [])
  | some _ =>
      match env.run detectVirtArgv with
      | Except.error e => (Except.error (PyError.osError e), [detectVirtArgv])
      | Except.ok result => (Except.ok (result.returncode == 0), [detectVirtArgv])

/-- The value `is_container` produces, discarding the effect trace. -/
def is_container (env : Env) : Except PyError Bool :=
  (is_containerRun env).1

/-- Host where `systemd-detect-virt` resolves and exits with the given
status, writing the given streams. -/
def envExit (code : Int) (out err : String) : Env where
  which := fun _ => some "/usr/bin/systemd-detect-virt"
  run := fun _ => Except.ok ⟨code, out, err⟩

/-- Host where `systemd-detect-virt` is absent from the search path. -/
def envMissing : Env where
  which := fun _ => none
  run := fun _ => Except.error (OSFailure.otherError "unreachable")

/-- Host where the executable resolves but spawning it fails with a
permission error. -/
def envSpawnDenied : Env where
  which := fun _ => some "/usr/bin/systemd-detect-virt"
  run := fun _ => Except.error (OSFailure.permissionError "Permission denied")

/-- C1: when `systemd-detect-virt` resolves on the search path and the
spawned process exits with status 0, `is_container` returns `true`. -/
theorem is_container_exit_zero (env : Env) (p : String) (r : CompletedProcess)
    (hw : env.which "systemd-detect-virt" = some p)
    (hr : env.run detectVirtArgv = Except.ok r)
    (hc : r.returncode = 0) :
    is_container env = Except.ok true := by
  simp [is_container, is_containerRun, hw, hr, hc]

/-- Witness for C1: a host whose detector exits 0. -/
theorem is_container_exit_zero_witness :
    is_container (envExit 0 "" "") = Except.ok true :=
  is_container_exit_zero (envExit 0 "" "") "/usr/bin/systemd-detect-virt"
    ⟨0, "", ""⟩ rfl rfl rfl

/-- C2: when `systemd-detect-virt` resolves and the spawned process
exits with any nonzero status, `is_container` returns `false`; since
every nonzero exit code yields the same `Except.ok false`, all nonzero
codes are mapped identically, with no finer distinction among them. -/
theorem is_container_exit_nonzero (env : Env) (p : String) (r : CompletedProcess)
    (hw : env.which "systemd-detect-virt" = some p)
    (hr : env.run detectVirtArgv = Except.ok r)
    (hc : r.returncode ≠ 0) :
    is_container env = Except.ok false := by
  simp [is_container, is_containerRun, hw, hr, hc]

/-- Witness for C2: two hosts whose detectors exit 1 and -9; both map
to `false`. -/
theorem is_container_exit_nonzero_witness :
    is_container (envExit 1 "" "") = Except.ok false ∧
      is_container (envExit (-9) "" "") = Except.ok false :=
  ⟨is_container_exit_nonzero (envExit 1 "" "") "/usr/bin/systemd-detect-virt"
      ⟨1, "", ""⟩ rfl rfl (by decide),
    is_container_exit_nonzero (envExit (-9) "" "") "/usr/bin/systemd-detect-virt"
      ⟨-9, "", ""⟩ rfl rfl (by decide)⟩

/-- C3: when no executable named `systemd-detect-virt` resolves,
`is_container` fails with the `DetectVirtNotFoundError` kind carrying a
human-readable (nonempty) message, and returns no boolean. -/
theorem is_container_missing_raises (env : Env)
    (hw : env.which "systemd-detect-virt" = none) :
    is_container env
        = Except.error (PyError.detectVirtNotFound ⟨[detectVirtMissingMessage]⟩)
      ∧ detectVirtMissingMessage ≠ ""
      ∧ ∀ b : Bool, is_container env ≠ Except.ok b := by
  refine ⟨?_, by decide, ?_⟩
  · simp [is_container, is_containerRun, hw]
  · intro b
    simp [is_container, is_containerRun, hw]

/-- Witness for C3: a host with an empty search path. -/
theorem is_container_missing_raises_witness :
    is_container envMissing
        = Except.error (PyError.detectVirtNotFound ⟨[detectVirtMissingMessage]⟩)
      ∧ detectVirtMissingMessage ≠ ""
      ∧ ∀ b : Bool, is_container envMissing ≠ Except.ok b :=
  is_container_missing_raises envMissing rfl

/-- C4: `is_container` specially handles only the executable-not-found
condition; any other process-invocation failure (e.g. a permission
error while spawning) is propagated to the caller exactly as raised and
is never translated into `DetectVirtNotFoundError`. -/
theorem is_container_propagates_os_errors (env : Env) (p : String) (e : OSFailure)
    (hw : env.which "systemd-detect-virt" = some p)
    (hr : env.run detectVirtArgv = Except.error e) :
    is_container env = Except.error (PyError.osError e)
      ∧ ∀ d : DetectVirtNotFoundError,
          is_container env ≠ Except.error (PyError.detectVirtNotFound d) := by
  constructor
  · simp [is_container, is_containerRun, hw, hr]
  · intro d
    simp [is_container, is_containerRun, hw, hr]

/-- Witness for C4: a host whose spawn fails with a permission error;
the exact failure comes back unchanged. -/
theorem is_container_propagates_os_errors_witness :
    is_container envSpawnDenied
        = Except.error (PyError.osError (OSFailure.permissionError "Permission denied"))
      ∧ ∀ d : DetectVirtNotFoundError,
          is_container envSpawnDenied ≠ Except.error (PyError.detectVirtNotFound d) :=
  is_container_propagates_os_errors envSpawnDenied "/usr/bin/systemd-detect-virt"
    (OSFailure.permissionError "Permission denied") rfl rfl

/-- C5: when the executable resolves, the tool is run with exactly the
argument vector `["systemd-detect-virt", "--container"]`, and the
returned boolean depends on the exit code alone: two runs with equal
return codes yield equal results whatever the output streams hold. -/
theorem is_container_argv_and_exit_code_only (env : Env) (p : String)
    (hw : env.which "systemd-detect-virt" = some p) :
    (is_containerRun env).2 = [["systemd-detect-virt", "--container"]]
      ∧ ∀ (env2 : Env) (p2 : String) (r r2 : CompletedProcess),
          env2.which "systemd-detect-virt" = some p2 →
          env.run detectVirtArgv = Except.ok r →
          env2.run detectVirtArgv = Except.ok r2 →
          r.returncode = r2.returncode →
          is_container env = is_container env2 := by
  constructor
  · unfold is_containerRun
    rw [hw]
    cases env.run detectVirtArgv <;> simp [detectVirtArgv]
  · intro env2 p2 r r2 hw2 hr hr2 hcode
    simp [is_container, is_containerRun, hw, hw2, hr, hr2, hcode]

/-- Witness for C5: the argv is the fixed pair, and a run producing
chatty output agrees with a silent run of equal exit code. -/
theorem is_container_argv_and_exit_code_only_witness :
    (is_containerRun (envExit 0 "lxc" "")).2 = [["systemd-detect-virt", "--container"]]
      ∧ ∀ (env2 : Env) (p2 : String) (r r2 : CompletedProcess),
          env2.which "systemd-detect-virt" = some p2 →
          (envExit 0 "lxc" "").run detectVirtArgv = Except.ok r →
          env2.run detectVirtArgv = Except.ok r2 →
          r.returncode = r2.returncode →
          is_container (envExit 0 "lxc" "") = is_container env2 :=
  is_container_argv_and_exit_code_only (envExit 0 "lxc" "")
    "/usr/bin/systemd-detect-virt" rfl

/-- C6: determinism — two invocations under identical host state (the
same executable-resolution result and the same `subprocess.run`
outcome on the detector argv) produce identical outcomes, value and
effect trace alike. -/
theorem is_container_deterministic (env1 env2 : Env)
    (hw : env1.which "systemd-detect-virt" = env2.which "systemd-detect-virt")
    (hr : env1.run detectVirtArgv = env2.run detectVirtArgv) :
    is_containerRun env1 = is_containerRun env2 := by
  unfold is_containerRun
  rw [hw, hr]

/-- Witness for C6: two hosts with literally equal observations. -/
theorem is_container_deterministic_witness :
    is_containerRun (envExit 0 "" "") = is_containerRun (envExit 0 "" "") :=
  is_container_deterministic (envExit 0 "" "") (envExit 0 "" "") rfl rfl

/-- C7: when the executable resolves and the child runs to completion,
an invocation makes exactly one `subprocess.run` call — no retry, no
cached skip — and the effect trace holds nothing besides that single
spawn. -/
theorem is_container_single_spawn (env : Env) (p : String) (r : CompletedProcess)
    (hw : env.which "systemd-detect-virt" = some p)
    (hr : env.run detectVirtArgv = Except.ok r) :
    (is_containerRun env).2.length = 1
      ∧ (is_containerRun env).2 = [detectVirtArgv] := by
  simp [is_containerRun, hw, hr]

/-- Witness for C7: one spawn on a host whose detector exits 0. -/
theorem is_container_single_spawn_witness :
    (is_containerRun (envExit 0 "" "")).2.length = 1
      ∧ (is_containerRun (envExit 0 "" "")).2 = [detectVirtArgv] :=
  is_container_single_spawn (envExit 0 "" "") "/usr/bin/systemd-detect-virt"
    ⟨0, "", ""⟩ rfl rfl

/-- C8: atomicity on error — when the executable does not resolve, the
invocation raises with an empty effect trace, so no child process was
started. -/
theorem is_container_missing_no_spawn (env : Env)
    (hw : env.which "systemd-detect-virt" = none) :
    (is_containerRun env).2 = []
      ∧ (is_containerRun env).1
          = Except.error (PyError.detectVirtNotFound ⟨[detectVirtMissingMessage]⟩) := by
  simp [is_containerRun, hw]

/-- Witness for C8: the empty-path host spawns nothing. -/
theorem is_container_missing_no_spawn_witness :
    (is_containerRun envMissing).2 = []
      ∧ (is_containerRun envMissing).1
          = Except.error (PyError.detectVirtNotFound ⟨[detectVirtMissingMessage]⟩) :=
  is_container_missing_no_spawn envMissing rfl

/-- C9: the exception raised on a missing executable carries exactly
the message "executable `systemd-detect-virt` not found. cannot
determine if machine is a container instance", and the `message`
property of `DetectVirtNotFoundError` always returns the first argument
the exception was constructed with. -/
theorem detect_virt_error_message (env : Env)
    (hw : env.which "systemd-detect-virt" = none) :
    is_container env
        = Except.error (PyError.detectVirtNotFound ⟨[detectVirtMissingMessage]⟩)
      ∧ DetectVirtNotFoundError.message ⟨[detectVirtMissingMessage]⟩
          = some ("executable `systemd-detect-virt` not found. "
              ++ "cannot determine if machine is a container instance")
      ∧ ∀ (m : String) (rest : List String),
          DetectVirtNotFoundError.message ⟨m :: rest⟩ = some m := by
  refine ⟨?_, rfl, fun m rest => rfl⟩
  simp [is_container, is_containerRun, hw]

/-- Witness for C9: the empty-path host raises with the exact text. -/
theorem detect_virt_error_message_witness :
    is_container envMissing
        = Except.error (PyError.detectVirtNotFound ⟨[detectVirtMissingMessage]⟩)
      ∧ DetectVirtNotFoundError.message ⟨[detectVirtMissingMessage]⟩
          = some ("executable `systemd-detect-virt` not found. "
              ++ "cannot determine if machine is a container instance")
      ∧ ∀ (m : String) (rest : List String),
          DetectVirtNotFoundError.message ⟨m :: rest⟩ = some m :=
  detect_virt_error_message envMissing rfl

/-- C10: noninterference with process output — two invocations whose
children exit with the same status but write arbitrarily different
stdout/stderr return the same boolean; the output streams are never
inspected. -/
theorem is_container_output_noninterference (env1 env2 : Env) (p1 p2 : String)
    (code : Int) (out1 err1 out2 err2 : String)
    (hw1 : env1.which "systemd-detect-virt" = some p1)
    (hw2 : env2.which "systemd-detect-virt" = some p2)
    (hr1 : env1.run detectVirtArgv = Except.ok ⟨code, out1, err1⟩)
    (hr2 : env2.run detectVirtArgv = Except.ok ⟨code, out2, err2⟩) :
    is_container env1 = is_container env2 := by
  simp [is_container, is_containerRun, hw1, hw2, hr1, hr2]

/-- Witness for C10: a silent child and a chatty child with equal exit
status give the same answer. -/
theorem is_container_output_noninterference_witness :
    is_container (envExit 0 "" "") = is_container (envExit 0 "lxc\n" "warning") :=
  is_container_output_noninterference (envExit 0 "" "") (envExit 0 "lxc\n" "warning")
    "/usr/bin/systemd-detect-virt" "/usr/bin/systemd-detect-virt"
    0 "" "" "lxc\n" "warning" rfl rfl rfl rfl
